import Mathlib

/-!
Verification of `Library/OcBootManagementLib/LegacyBootSupport.c`.

The source file contains four pieces of functionality:
  * `CheckLegacySignature` — byte-pattern search delegated to `FindPattern`;
  * `ScanAppleLegacyInterfacePaths` — enumerate loaded-image handles,
    filter memory-mapped hardware device paths, deduplicate, append the
    Apple legacy interface trailer, store into a bounded array with a
    `NULL` terminator;
  * `InternalLoadAppleLegacyInterface` — persist the `BootCampHD`
    variable, scan, then sequentially attempt `LoadImage` on candidates;
  * `InternalGetDiskLegacyOsType` — read a disk's first sector and
    classify it by boot-loader signature.

Ambient firmware state (handle databases, protocol lookups, variable
store, image loading, disk reads) is modelled as explicit environment
records; device paths are modelled as their raw byte sequences
(`List Nat`, one entry per byte).
-/

/-- UEFI status codes used by the translated functions.  Only `success`
is a non-error status; `EFI_ERROR` below mirrors the C macro. -/
inductive EfiStatus where
  | success
  | invalidParameter
  | outOfResources
  | notFound
  | deviceError
  | writeProtected
deriving DecidableEq

/-- The `EFI_ERROR` macro: every status other than `EFI_SUCCESS` that the
model uses is an error status. -/
def EFI_ERROR : EfiStatus → Bool
  | EfiStatus.success => false
  | _ => true

/-- `DevicePathType`: first byte of a device-path node. -/
def devicePathType (p : List Nat) : Nat := p.getD 0 0

/-- `DevicePathSubType`: second byte of a device-path node. -/
def devicePathSubType (p : List Nat) : Nat := p.getD 1 0

/-- `DevicePathNodeLength`: little-endian 16-bit length at bytes 2..3. -/
def devicePathNodeLength (p : List Nat) : Nat := p.getD 2 0 + 256 * p.getD 3 0

/-- `HARDWARE_DEVICE_PATH` type value. -/
def HARDWARE_DEVICE_PATH : Nat := 0x01

/-- `HW_MEMMAP_DP` subtype value. -/
def HW_MEMMAP_DP : Nat := 0x03

/-- Modelled collaborator (EDK2 `CompareMem`): compares the first `n`
bytes of both buffers and returns 0 exactly when they are identical,
nonzero otherwise (memcmp semantics; the EDK2 contract is "Returns 0 if
all bytes match"). -/
def CompareMem (a b : List Nat) (n : Nat) : Nat :=
  if a.take n = b.take n then 0 else 1

/-- Modelled collaborator (EDK2 `GetDevicePathSize` node walk): sum of
node lengths up to and including the end-of-path node.  Fuel-bounded so
that malformed byte sequences still terminate. -/
def devicePathSizeAux : Nat → List Nat → Nat
  | 0, _ => 0
  | Nat.succ fuel, p =>
    if devicePathType p = 0x7F ∧ devicePathSubType p = 0xFF then
      devicePathNodeLength p
    else
      devicePathNodeLength p + devicePathSizeAux fuel (p.drop (devicePathNodeLength p))

/-- Modelled collaborator (EDK2 `GetDevicePathSize`). -/
def getDevicePathSize (p : List Nat) : Nat :=
  devicePathSizeAux (p.length + 1) p

/-- Modelled collaborator (EDK2 `AppendDevicePath`): the first path with
its 4-byte end-of-path node stripped, followed by all bytes of the
second path. -/
def appendDevicePath (first second : List Nat) : List Nat :=
  first.take (getDevicePathSize first - 4) ++ second

/-- `AppleLegacyInterfaceMediaDevicePathData`: the fixed PIWG firmware
media trailer appended to each accepted candidate, byte for byte as in
the source. -/
def AppleLegacyInterfaceMediaDevicePathData : List Nat :=
  [0x04, 0x06, 0x14, 0x00, 0xEB, 0x85, 0x05, 0x2B,
   0xB8, 0xD8, 0xA9, 0x49, 0x8B, 0x8C, 0xE2, 0x1B,
   0x01, 0xAE, 0xF2, 0xB7, 0x7F, 0xFF, 0x04, 0x00]

/-- `MAX_APPLE_LEGACY_DEVICE_PATHS`. -/
def MAX_APPLE_LEGACY_DEVICE_PATHS : Nat := 16

/-- Transient heap resources allocated by the scanner and the loader,
used to track allocation/release behaviour. -/
inductive Resource where
  | handleBuffer
  | candidateArray
  | candidatePath (bytes : List Nat) (idx : Nat)
deriving DecidableEq

/-- Ambient firmware state consumed by `ScanAppleLegacyInterfacePaths`:
the result of `LocateHandleBuffer`, and the two `HandleProtocol`
lookups (loaded image → device handle, device handle → device path),
modelled as association lists where a missing key is a failed lookup. -/
structure ScanEnv where
  handlesResult : Except EfiStatus (List Nat)
  loadedImages : List (Nat × Nat)
  devicePaths : List (Nat × List Nat)

/-- Result of one scanner call: returned status, accepted candidate
paths in acceptance order (the non-`NULL` prefix of the output array),
and the allocation/release ledger. -/
structure ScanOut where
  status : EfiStatus
  entries : List (List Nat)
  allocs : List Resource
  frees : List Resource
deriving DecidableEq

/-- One iteration of the scanner's handle loop body, given the already
accepted candidates: resolve the loaded image, resolve its device path,
keep only Hardware/MemMap-leading paths, run the duplicate check
(`DevicePathNodeLength` equality, then `CompareMem` over the node
length, taken as "duplicate" when `CompareMem` is nonzero, exactly as
the C condition `if (CompareMem (...))` reads).  `none` is any of the
`continue` paths; `some` is the accepted candidate with the Apple
legacy trailer appended. -/
def scanStep (env : ScanEnv) (h : Nat) (acc : List (List Nat)) : Option (List Nat) :=
  match env.loadedImages.lookup h with
  | none => none
  | some dev =>
    match env.devicePaths.lookup dev with
    | none => none
    | some dp =>
      if devicePathType dp ≠ HARDWARE_DEVICE_PATH ∨ devicePathSubType dp ≠ HW_MEMMAP_DP then
        none
      else if acc.any fun q =>
          (devicePathNodeLength dp == devicePathNodeLength q)
            && (CompareMem dp q (devicePathNodeLength dp) != 0) then
        none
      else
        some (appendDevicePath dp AppleLegacyInterfaceMediaDevicePathData)

/-- The scanner's handle loop: handles are processed in order while
fewer than `maxPaths` candidates are stored; each accepted candidate is
appended to the output together with its allocation record. -/
def scanLoopAux (env : ScanEnv) (maxPaths : Nat) :
    List Nat → List (List Nat) → List Resource → List (List Nat) × List Resource
  | [], acc, allocs => (acc, allocs)
  | h :: hs, acc, allocs =>
    if acc.length < maxPaths then
      match scanStep env h acc with
      | none => scanLoopAux env maxPaths hs acc allocs
      | some cand =>
        scanLoopAux env maxPaths hs (acc ++ [cand])
          (allocs ++ [Resource.candidatePath cand acc.length])
    else (acc, allocs)

/-- `ScanAppleLegacyInterfacePaths`: decrements the capacity by one
(reserving the terminator slot), propagates a `LocateHandleBuffer`
failure, otherwise runs the handle loop, frees the handle buffer and
returns success. -/
def ScanAppleLegacyInterfacePaths (env : ScanEnv) (maxDevicePaths : Nat) : ScanOut :=
  match env.handlesResult with
  | Except.error s => ⟨s, [], [], []⟩
  | Except.ok handles =>
    let r := scanLoopAux env (maxDevicePaths - 1) handles [] []
    ⟨EfiStatus.success, r.1, Resource.handleBuffer :: r.2, [Resource.handleBuffer]⟩

/-- View of the zero-initialised `DevicePaths` array after the scanner
has written its entries and the `NULL` terminator: the accepted entries
followed by `none` in every remaining slot (the slot right after the
last entry is the terminator the scanner writes explicitly). -/
def scanOutputArray (env : ScanEnv) (cap : Nat) : List (Option (List Nat)) :=
  let so := ScanAppleLegacyInterfacePaths env cap
  so.entries.map some ++ List.replicate (cap - so.entries.length) none

/-- Result of the loader's candidate loop: final status, the image
handle slot, and the candidates attempted in order. -/
structure LoopOut where
  status : EfiStatus
  handle : Option Nat
  attempts : List (List Nat)
deriving DecidableEq

/-- The loader's `LoadImage` loop over the non-`NULL` prefix of the
candidate array: each candidate is attempted once; the image handle slot
is written only by a successful load; any status other than
`EFI_NOT_FOUND` stops the iteration. -/
def loadLoop (li : List Nat → EfiStatus × Nat) :
    List (List Nat) → EfiStatus → Option Nat → List (List Nat) → LoopOut
  | [], st, slot, att => ⟨st, slot, att⟩
  | p :: ps, _, slot, att =>
    let r := li p
    let slot2 := if r.1 = EfiStatus.success then some r.2 else slot
    if r.1 = EfiStatus.notFound then
      loadLoop li ps r.1 slot2 (att ++ [p])
    else
      ⟨r.1, slot2, att ++ [p]⟩

/-- Ambient firmware state consumed by `InternalLoadAppleLegacyInterface`:
the `OcDiskGetDevicePath` result, the `SetVariable` outcome, whether
`AllocateZeroPool` succeeds, the scanner environment, and the
`LoadImage` collaborator (status, and the handle value it writes on
success). -/
structure LoadEnv where
  wholeDiskPath : Option (List Nat)
  setVariableStatus : EfiStatus
  allocOk : Bool
  scanEnv : ScanEnv
  loadImage : List Nat → EfiStatus × Nat

/-- Observable outcome of one loader call: returned status, the image
handle slot, the load attempts in order, whether the scanner ran, and
the allocation/release ledger for the candidate array and the
scanner's resources. -/
structure LoadOut where
  status : EfiStatus
  imageHandle : Option Nat
  attempts : List (List Nat)
  scanCalled : Bool
  allocs : List Resource
  frees : List Resource
deriving DecidableEq

/-- `InternalLoadAppleLegacyInterface`: resolve the whole-disk path
(`EFI_INVALID_PARAMETER` when it is `NULL`), set the `BootCampHD`
variable and return its status on failure, allocate the zeroed
candidate array (`EFI_OUT_OF_RESOURCES` on failure), scan, run the load
loop only when the scan did not fail, free the candidate array, and
return the status left by the scan or the loop. -/
def InternalLoadAppleLegacyInterface (env : LoadEnv) : LoadOut :=
  match env.wholeDiskPath with
  | none => ⟨EfiStatus.invalidParameter, none, [], false, [], []⟩
  | some _ =>
    if EFI_ERROR env.setVariableStatus then
      ⟨env.setVariableStatus, none, [], false, [], []⟩
    else if env.allocOk = false then
      ⟨EfiStatus.outOfResources, none, [], false, [], []⟩
    else
      let so := ScanAppleLegacyInterfacePaths env.scanEnv MAX_APPLE_LEGACY_DEVICE_PATHS
      let lo :=
        if EFI_ERROR so.status then (⟨so.status, none, []⟩ : LoopOut)
        else loadLoop env.loadImage so.entries so.status none []
      ⟨lo.status, lo.handle, lo.attempts, true,
        Resource.candidateArray :: so.allocs, so.frees ++ [Resource.candidateArray]⟩

/-- `OC_LEGACY_OS_TYPE`. -/
inductive OC_LEGACY_OS_TYPE where
  | OcLegacyOsTypeNone
  | OcLegacyOsTypeWindowsBootmgr
  | OcLegacyOsTypeWindowsNtldr
deriving DecidableEq

/-- Whether `sig` is a leading byte run of `buf`. -/
def bytesMatchAt : List Nat → List Nat → Bool
  | [], _ => true
  | _ :: _, [] => false
  | s :: ss, b :: bs => (s == b) && bytesMatchAt ss bs

/-- Modelled from the spec: `FindPattern` (OcMiscLib) is not under
`src/`; per the spec's Signature Matcher contract it returns whether the
pattern occurs as a contiguous byte run anywhere in the buffer, with a
pattern longer than the buffer and an empty buffer both yielding
false. -/
def FindPattern (pat : List Nat) : List Nat → Bool
  | [] => false
  | b :: bs => bytesMatchAt pat (b :: bs) || FindPattern pat bs

/-- ASCII bytes of a signature literal (`AsciiStrLen` determines the
pattern length; the bytes are the characters themselves). -/
def AsciiStrToBytes (s : String) : List Nat :=
  s.toList.map Char.toNat

/-- `CheckLegacySignature`: searches the whole buffer for the ASCII
signature via `FindPattern`. -/
def CheckLegacySignature (sig : String) (buffer : List Nat) : Bool :=
  FindPattern (AsciiStrToBytes sig) buffer

/-- `MBR_SECTOR_SIZE`. -/
def MBR_SECTOR_SIZE : Nat := 512

/-- Modelled collaborator (EDK2 `ALIGN_VALUE`): rounds `v` up to the
next multiple of `a`. -/
def alignValue (v a : Nat) : Nat :=
  if a = 0 then v else v + (a - v % a) % a

/-- Ambient disk state consumed by `InternalGetDiskLegacyOsType`: the
`OcDiskInitializeContext` status, the context's block size, whether the
sector buffer allocation succeeds, the `OcDiskRead` status, and the
disk's leading bytes. -/
structure ClassifyEnv where
  contextStatus : EfiStatus
  blockSize : Nat
  allocOk : Bool
  readStatus : EfiStatus
  diskBytes : List Nat

/-- The sector buffer a successful read fills: the disk's first
`ALIGN_VALUE (MBR_SECTOR_SIZE, BlockSize)` bytes. -/
def classifierBuffer (env : ClassifyEnv) : List Nat :=
  env.diskBytes.take (alignValue MBR_SECTOR_SIZE env.blockSize)

/-- `InternalGetDiskLegacyOsType`: context-open failure, buffer
allocation failure and read failure all classify as
`OcLegacyOsTypeNone`; otherwise `"BOOTMGR"` is checked before
`"NTLDR"` and the first matching signature wins. -/
def InternalGetDiskLegacyOsType (env : ClassifyEnv) : OC_LEGACY_OS_TYPE :=
  if EFI_ERROR env.contextStatus then OC_LEGACY_OS_TYPE.OcLegacyOsTypeNone
  else if env.allocOk = false then OC_LEGACY_OS_TYPE.OcLegacyOsTypeNone
  else if EFI_ERROR env.readStatus then OC_LEGACY_OS_TYPE.OcLegacyOsTypeNone
  else
    let buffer := classifierBuffer env
    if CheckLegacySignature ("BOOTMGR") buffer then
      OC_LEGACY_OS_TYPE.OcLegacyOsTypeWindowsBootmgr
    else if CheckLegacySignature ("NTLDR") buffer then
      OC_LEGACY_OS_TYPE.OcLegacyOsTypeWindowsNtldr
    else
      OC_LEGACY_OS_TYPE.OcLegacyOsTypeNone

/-! Concrete firmware environments used to evaluate the translated
functions at specific inputs. -/

/-- A 4-byte end-of-path node. -/
def endNode : List Nat := [0x7F, 0xFF, 0x04, 0x00]

/-- A Hardware/MemMap node of length 8 (the model never inspects node
payloads, so a shortened node exercises the same control flow). -/
def memmapNodeA : List Nat := [0x01, 0x03, 0x08, 0x00, 0xAA, 0xBB, 0xCC, 0xDD]

/-- A matching device path used twice in `dupScanEnv`. -/
def dupPath : List Nat := memmapNodeA ++ endNode

/-- The candidate the scanner builds from `dupPath`. -/
def dupCandidate : List Nat :=
  appendDevicePath dupPath AppleLegacyInterfaceMediaDevicePathData

/-- Two loaded-image handles whose device paths are byte-identical. -/
def dupScanEnv : ScanEnv :=
  ⟨Except.ok [10, 11], [(10, 20), (11, 21)], [(20, dupPath), (21, dupPath)]⟩

/-- Pairwise distinct matching device paths that share the same leading
node length. -/
def distinctPath (i : Nat) : List Nat :=
  [0x01, 0x03, 0x08, 0x00, i, 0, 0, 0] ++ endNode

/-- Sixteen handles, each resolving to a distinct matching device path
of identical leading-node length. -/
def many16Env : ScanEnv :=
  ⟨Except.ok (List.range 16),
   (List.range 16).map fun h => (h, 100 + h),
   (List.range 16).map fun h => (100 + h, distinctPath h)⟩

/-- A matching path with leading-node length 8. -/
def pathA : List Nat := [0x01, 0x03, 0x08, 0x00, 1, 2, 3, 4] ++ endNode

/-- A matching path with leading-node length 12 (distinct node length,
so the duplicate check's length test skips the byte comparison). -/
def pathB : List Nat :=
  [0x01, 0x03, 0x0C, 0x00, 1, 2, 3, 4, 5, 6, 7, 8] ++ endNode

/-- Candidate built from `pathA`. -/
def candA : List Nat := appendDevicePath pathA AppleLegacyInterfaceMediaDevicePathData

/-- Candidate built from `pathB`. -/
def candB : List Nat := appendDevicePath pathB AppleLegacyInterfaceMediaDevicePathData

/-- Scanner environment yielding the two candidates `[candA, candB]`. -/
def twoCandScanEnv : ScanEnv :=
  ⟨Except.ok [10, 11], [(10, 20), (11, 21)], [(20, pathA), (21, pathB)]⟩

/-- Loader environment where loading `candA` is "not found" and loading
`candB` succeeds with handle 42. -/
def wenv4 : LoadEnv :=
  ⟨some [0x01], EfiStatus.success, true, twoCandScanEnv,
   fun p => if p = candB then (EfiStatus.success, 42) else (EfiStatus.notFound, 0)⟩

/-- Loader environment whose `SetVariable` fails with a write-protect
error. -/
def wenv5 : LoadEnv :=
  ⟨some [0x01], EfiStatus.writeProtected, true,
   ⟨Except.ok [], [], []⟩, fun _ => (EfiStatus.notFound, 0)⟩

/-- Loader environment whose `LocateHandleBuffer` fails with a device
error. -/
def cenv2 : LoadEnv :=
  ⟨some [0x01], EfiStatus.success, true,
   ⟨Except.error EfiStatus.deviceError, [], []⟩, fun _ => (EfiStatus.notFound, 0)⟩

/-- Loader environment whose scan succeeds with an empty candidate
set. -/
def cenv3 : LoadEnv :=
  ⟨some [0x01], EfiStatus.success, true,
   ⟨Except.ok [], [], []⟩, fun _ => (EfiStatus.notFound, 0)⟩

/-- Loader environment whose scan accepts exactly one candidate. -/
def cenv9 : LoadEnv :=
  ⟨some [0x01], EfiStatus.success, true,
   ⟨Except.ok [10], [(10, 20)], [(20, dupPath)]⟩, fun _ => (EfiStatus.notFound, 0)⟩

/-- Disk whose first sector contains `"NTLDR"` but not `"BOOTMGR"`. -/
def wenv6 : ClassifyEnv :=
  ⟨EfiStatus.success, 512, true, EfiStatus.success, AsciiStrToBytes ("xxNTLDRyy")⟩

/-- Disk context that opens fine but whose sector-buffer allocation
fails. -/
def wenv10 : ClassifyEnv :=
  ⟨EfiStatus.success, 512, false, EfiStatus.success, []⟩

/-! Helper lemmas. -/

/-- `bytesMatchAt` decides whether the signature is a leading run of the
buffer. -/
theorem bytesMatchAt_iff (s x : List Nat) :
    bytesMatchAt s x = true ↔ x.take s.length = s := by
  induction s generalizing x with
  | nil => simp [bytesMatchAt]
  | cons a ss ih =>
    cases x with
    | nil => simp [bytesMatchAt]
    | cons b bs =>
      simp only [bytesMatchAt, Bool.and_eq_true, beq_iff_eq, List.length_cons,
        List.take_succ_cons, List.cons.injEq, ih]
      exact ⟨fun h => ⟨h.1.symm, h.2⟩, fun h => ⟨h.1.symm, h.2⟩⟩

/-- `FindPattern` finds a nonempty pattern exactly when it occurs as a
contiguous byte run at some offset of the buffer. -/
theorem FindPattern_iff (pat buf : List Nat) (hpat : pat ≠ []) :
    FindPattern pat buf = true ↔
      ∃ i, (buf.drop i).take pat.length = pat := by
  induction buf with
  | nil =>
    constructor
    · intro h
      simp [FindPattern] at h
    · rintro ⟨i, hi⟩
      have hnil : pat = [] := by simpa using hi.symm
      exact absurd hnil hpat
  | cons b bs ih =>
    simp only [FindPattern, Bool.or_eq_true, bytesMatchAt_iff, ih]
    constructor
    · rintro (h | ⟨i, hi⟩)
      · exact ⟨0, by simpa using h⟩
      · exact ⟨i + 1, by simpa using hi⟩
    · rintro ⟨i, hi⟩
      cases i with
      | zero => exact Or.inl (by simpa using hi)
      | succ j => exact Or.inr ⟨j, by simpa using hi⟩

/-- A pattern longer than the buffer is never found. -/
theorem FindPattern_longer (pat buf : List Nat) (h : buf.length < pat.length) :
    FindPattern pat buf = false := by
  have hpat : pat ≠ [] := by
    intro he
    rw [he] at h
    simp at h
  cases hf : FindPattern pat buf with
  | false => rfl
  | true =>
    obtain ⟨i, hi⟩ := (FindPattern_iff pat buf hpat).mp hf
    have hlen := congrArg List.length hi
    simp [List.length_take, List.length_drop] at hlen
    omega

/-- When every candidate loads as "not found" the loop walks the whole
list, never writes the handle slot, and ends with the incoming status
(empty list) or "not found" (otherwise). -/
theorem loadLoop_all_notFound (li : List Nat → EfiStatus × Nat) (es : List (List Nat))
    (hall : ∀ p ∈ es, (li p).1 = EfiStatus.notFound) :
    ∀ st slot att, loadLoop li es st slot att =
      ⟨if es.isEmpty then st else EfiStatus.notFound, slot, att ++ es⟩ := by
  induction es with
  | nil =>
    intro st slot att
    simp [loadLoop]
  | cons p ps ih =>
    intro st slot att
    have hp : (li p).1 = EfiStatus.notFound := hall p (by simp)
    have hps : ∀ q ∈ ps, (li q).1 = EfiStatus.notFound := fun q hq => hall q (by simp [hq])
    simp only [loadLoop, hp]
    rw [ih hps]
    simp

/-- The loop stops at the first candidate whose load status is not
"not found", returning that status, the handle written by a successful
load, and the attempts up to and including the stopping candidate. -/
theorem loadLoop_stops (li : List Nat → EfiStatus × Nat) (pre : List (List Nat))
    (q : List Nat) (rest : List (List Nat))
    (hpre : ∀ p ∈ pre, (li p).1 = EfiStatus.notFound)
    (hq : (li q).1 ≠ EfiStatus.notFound) :
    ∀ st slot att, loadLoop li (pre ++ q :: rest) st slot att =
      ⟨(li q).1, (if (li q).1 = EfiStatus.success then some (li q).2 else slot),
        att ++ pre ++ [q]⟩ := by
  induction pre with
  | nil =>
    intro st slot att
    simp only [List.nil_append, loadLoop]
    simp [hq]
  | cons p ps ih =>
    intro st slot att
    have hp : (li p).1 = EfiStatus.notFound := hpre p (by simp)
    have hps : ∀ x ∈ ps, (li x).1 = EfiStatus.notFound := fun x hx => hpre x (by simp [hx])
    simp only [List.cons_append, loadLoop]
    rw [hp]
    simp only [if_neg (by decide : ¬ (EfiStatus.notFound = EfiStatus.success)), if_pos rfl,
      List.append_eq]
    rw [ih hps]
    simp

/-- The scanner's loop never stores more candidates than `maxPaths`. -/
theorem scanLoopAux_length_le (env : ScanEnv) (maxPaths : Nat) (hs : List Nat) :
    ∀ acc allocs, acc.length ≤ maxPaths →
      (scanLoopAux env maxPaths hs acc allocs).1.length ≤ maxPaths := by
  induction hs with
  | nil =>
    intro acc allocs hacc
    simp only [scanLoopAux]
    exact hacc
  | cons h t ih =>
    intro acc allocs hacc
    by_cases hlt : acc.length < maxPaths
    · simp only [scanLoopAux, if_pos hlt]
      split
      · exact ih acc allocs hacc
      · refine ih _ _ ?_
        simpa using hlt
    · simp only [scanLoopAux, if_neg hlt]
      exact hacc

/-- Indexing an append at the length of the first part reads the head
of the second part. -/
theorem get?_append_length {α : Type} (l1 l2 : List α) :
    (l1 ++ l2).get? l1.length = l2.get? 0 := by
  induction l1 with
  | nil => simp
  | cons a t ih => simpa using ih

/-! Claim theorems. -/

/-- Claim C1 (code bug witness): in `dupScanEnv` two enumerated
candidates carry byte-identical device paths, yet BOTH are stored and
the output contains two byte-identical entries.  The duplicate check
reads `if (CompareMem (...))`, which is true exactly when the compared
bytes DIFFER (`CompareMem` returns 0 on equality), so a byte-identical
second occurrence is never flagged as a duplicate — contradicting the
source's own comment "Ensure we don't add a duplicate path." -/
theorem scan_adds_identical_duplicate_paths :
    dupScanEnv.devicePaths = [(20, dupPath), (21, dupPath)] ∧
    (ScanAppleLegacyInterfacePaths dupScanEnv 16).entries = [dupCandidate, dupCandidate] ∧
    (ScanAppleLegacyInterfacePaths dupScanEnv 16).entries.get? 0 =
      (ScanAppleLegacyInterfacePaths dupScanEnv 16).entries.get? 1 :=
  ⟨by decide, by decide, by decide⟩

/-- Claim C2 counterexample: with a failing scan (device error from the
handle enumeration) the loader returns the scan error itself — not the
load loop's "not found" outcome — and attempts no load. -/
theorem loader_propagates_scan_error_cex :
    (InternalLoadAppleLegacyInterface cenv2).status = EfiStatus.deviceError ∧
    ¬ (InternalLoadAppleLegacyInterface cenv2).status = EfiStatus.notFound ∧
    (InternalLoadAppleLegacyInterface cenv2).attempts = [] :=
  ⟨by decide, by decide, by decide⟩

/-- Claim C2 (amended): when the scanner fails, the loader skips the
load loop entirely — no load attempt occurs — and propagates the scan
error as its own result. -/
theorem loader_scan_error_skips_loads (env : LoadEnv) (w : List Nat) (s : EfiStatus)
    (hw : env.wholeDiskPath = some w)
    (hv : EFI_ERROR env.setVariableStatus = false)
    (ha : env.allocOk = true)
    (hs : env.scanEnv.handlesResult = Except.error s)
    (hes : EFI_ERROR s = true) :
    (InternalLoadAppleLegacyInterface env).status = s ∧
    (InternalLoadAppleLegacyInterface env).attempts = [] ∧
    (InternalLoadAppleLegacyInterface env).imageHandle = none := by
  simp [InternalLoadAppleLegacyInterface, hw, hv, ha, ScanAppleLegacyInterfacePaths, hs, hes]

/-- Claim C2 amended-theorem witness at `cenv2`. -/
theorem loader_scan_error_skips_loads_witness :
    cenv2.scanEnv.handlesResult = Except.error EfiStatus.deviceError ∧
    (InternalLoadAppleLegacyInterface cenv2).status = EfiStatus.deviceError ∧
    (InternalLoadAppleLegacyInterface cenv2).attempts = [] :=
  ⟨rfl,
   (loader_scan_error_skips_loads cenv2 [0x01] EfiStatus.deviceError rfl rfl rfl rfl rfl).1,
   (loader_scan_error_skips_loads cenv2 [0x01] EfiStatus.deviceError rfl rfl rfl rfl rfl).2.1⟩

/-- Claim C3 counterexample: when the scan succeeds with an empty
candidate set the loader returns the scan's SUCCESS status, not "not
found" (the load loop never runs, so `Status` keeps the scanner's
`EFI_SUCCESS`). -/
theorem loader_empty_set_returns_success_cex :
    (InternalLoadAppleLegacyInterface cenv3).status = EfiStatus.success ∧
    ¬ (InternalLoadAppleLegacyInterface cenv3).status = EfiStatus.notFound ∧
    (InternalLoadAppleLegacyInterface cenv3).attempts = [] :=
  ⟨by decide, by decide, by decide⟩

/-- Claim C3 (amended): if the scanner succeeds but produces an empty
candidate set, the loader attempts no load and returns the scanner's
success status (the last observed status), not "not found". -/
theorem loader_empty_candidates_returns_scan_success (env : LoadEnv) (w : List Nat)
    (al fr : List Resource)
    (hw : env.wholeDiskPath = some w)
    (hv : EFI_ERROR env.setVariableStatus = false)
    (ha : env.allocOk = true)
    (hscan : ScanAppleLegacyInterfacePaths env.scanEnv MAX_APPLE_LEGACY_DEVICE_PATHS =
      ⟨EfiStatus.success, [], al, fr⟩) :
    (InternalLoadAppleLegacyInterface env).status = EfiStatus.success ∧
    (InternalLoadAppleLegacyInterface env).attempts = [] ∧
    (InternalLoadAppleLegacyInterface env).imageHandle = none := by
  have h1 : EFI_ERROR EfiStatus.success = false := rfl
  simp [InternalLoadAppleLegacyInterface, hw, hv, ha, hscan, h1, loadLoop]

/-- Claim C3 amended-theorem witness at `cenv3`. -/
theorem loader_empty_candidates_returns_scan_success_witness :
    ScanAppleLegacyInterfacePaths cenv3.scanEnv MAX_APPLE_LEGACY_DEVICE_PATHS =
      ⟨EfiStatus.success, [], [Resource.handleBuffer], [Resource.handleBuffer]⟩ ∧
    (InternalLoadAppleLegacyInterface cenv3).status = EfiStatus.success ∧
    (InternalLoadAppleLegacyInterface cenv3).attempts = [] :=
  ⟨by decide,
   (loader_empty_candidates_returns_scan_success cenv3 [0x01]
      [Resource.handleBuffer] [Resource.handleBuffer] rfl rfl rfl (by decide)).1,
   (loader_empty_candidates_returns_scan_success cenv3 [0x01]
      [Resource.handleBuffer] [Resource.handleBuffer] rfl rfl rfl (by decide)).2.1⟩

/-- Claim C5: if persisting the whole-disk path into the boot-disk
variable fails, the loader returns that failure status immediately,
runs no candidate scan and attempts no load. -/
theorem loader_persistence_gate (env : LoadEnv) (w : List Nat)
    (hw : env.wholeDiskPath = some w)
    (hv : EFI_ERROR env.setVariableStatus = true) :
    (InternalLoadAppleLegacyInterface env).status = env.setVariableStatus ∧
    (InternalLoadAppleLegacyInterface env).scanCalled = false ∧
    (InternalLoadAppleLegacyInterface env).attempts = [] ∧
    (InternalLoadAppleLegacyInterface env).imageHandle = none := by
  simp [InternalLoadAppleLegacyInterface, hw, hv]

/-- Claim C5 witness at `wenv5`. -/
theorem loader_persistence_gate_witness :
    EFI_ERROR wenv5.setVariableStatus = true ∧
    (InternalLoadAppleLegacyInterface wenv5).status = EfiStatus.writeProtected ∧
    (InternalLoadAppleLegacyInterface wenv5).scanCalled = false :=
  ⟨rfl,
   (loader_persistence_gate wenv5 [0x01] rfl rfl).1,
   (loader_persistence_gate wenv5 [0x01] rfl rfl).2.1⟩

/-- Claim C9 counterexample: in `cenv9` the scanner accepts one
candidate; the loader frees the candidate array but the constituent
candidate path it stored is never released. -/
theorem loader_leaks_candidate_path_cex :
    Resource.candidatePath dupCandidate 0 ∈ (InternalLoadAppleLegacyInterface cenv9).allocs ∧
    Resource.candidatePath dupCandidate 0 ∉ (InternalLoadAppleLegacyInterface cenv9).frees :=
  ⟨by decide, by decide⟩

/-- Claim C9 (amended): on every exit path the loader releases the
candidate collection array (and the scanner releases its handle
buffer), but no constituent candidate path stored in the collection is
ever released. -/
theorem loader_releases_array_not_paths (env : LoadEnv) :
    (Resource.candidateArray ∈ (InternalLoadAppleLegacyInterface env).allocs →
      Resource.candidateArray ∈ (InternalLoadAppleLegacyInterface env).frees) ∧
    (Resource.handleBuffer ∈ (InternalLoadAppleLegacyInterface env).allocs →
      Resource.handleBuffer ∈ (InternalLoadAppleLegacyInterface env).frees) ∧
    (∀ p i, Resource.candidatePath p i ∉ (InternalLoadAppleLegacyInterface env).frees) := by
  cases henw : env.wholeDiskPath with
  | none => simp [InternalLoadAppleLegacyInterface, henw]
  | some w =>
    by_cases hv : EFI_ERROR env.setVariableStatus
    · simp [InternalLoadAppleLegacyInterface, henw, hv]
    · by_cases hao : env.allocOk = false
      · simp [InternalLoadAppleLegacyInterface, henw, hv, hao]
      · cases hres : env.scanEnv.handlesResult with
        | error s =>
          simp [InternalLoadAppleLegacyInterface, henw, hv, hao,
            ScanAppleLegacyInterfacePaths, hres]
        | ok handles =>
          simp [InternalLoadAppleLegacyInterface, henw, hv, hao,
            ScanAppleLegacyInterfacePaths, hres]

/-- Claim C9 amended-theorem witness at `cenv9`. -/
theorem loader_releases_array_not_paths_witness :
    Resource.candidateArray ∈ (InternalLoadAppleLegacyInterface cenv9).allocs ∧
    Resource.candidateArray ∈ (InternalLoadAppleLegacyInterface cenv9).frees :=
  ⟨by decide, (loader_releases_array_not_paths cenv9).1 (by decide)⟩

/-- Unfolding of the loader once the whole-disk path resolved, the
variable write succeeded and the array allocation succeeded. -/
theorem loader_main_branch (env : LoadEnv) (w : List Nat)
    (hw : env.wholeDiskPath = some w)
    (hv : EFI_ERROR env.setVariableStatus = false)
    (ha : env.allocOk = true) :
    InternalLoadAppleLegacyInterface env =
      (let so := ScanAppleLegacyInterfacePaths env.scanEnv MAX_APPLE_LEGACY_DEVICE_PATHS
       let lo := if EFI_ERROR so.status then (⟨so.status, none, []⟩ : LoopOut)
                 else loadLoop env.loadImage so.entries so.status none []
       (⟨lo.status, lo.handle, lo.attempts, true,
         Resource.candidateArray :: so.allocs, so.frees ++ [Resource.candidateArray]⟩ : LoadOut)) := by
  simp [InternalLoadAppleLegacyInterface, hw, hv, ha]

/-- Claim C4: the loader attempts the scanned candidates in stored
order; every "not found" advances to the next candidate (all "not
found" walks the whole list and ends "not found"), while the first
candidate whose load status differs from "not found" stops the
iteration, and that status is returned together with the image handle a
successful load wrote.  In particular, for candidates [A, B] with A
"not found" and B successful the loader returns success with B's
handle, and a distinct failure on A is returned without attempting
B. -/
theorem loader_fallback_order (env : LoadEnv) (w : List Nat)
    (es : List (List Nat)) (al fr : List Resource)
    (hw : env.wholeDiskPath = some w)
    (hv : EFI_ERROR env.setVariableStatus = false)
    (ha : env.allocOk = true)
    (hscan : ScanAppleLegacyInterfacePaths env.scanEnv MAX_APPLE_LEGACY_DEVICE_PATHS =
      ⟨EfiStatus.success, es, al, fr⟩) :
    ((∀ p ∈ es, (env.loadImage p).1 = EfiStatus.notFound) →
       (InternalLoadAppleLegacyInterface env).attempts = es ∧
       (InternalLoadAppleLegacyInterface env).imageHandle = none ∧
       (InternalLoadAppleLegacyInterface env).status =
         (if es.isEmpty then EfiStatus.success else EfiStatus.notFound)) ∧
    (∀ pre q rest, es = pre ++ q :: rest →
       (∀ p ∈ pre, (env.loadImage p).1 = EfiStatus.notFound) →
       (env.loadImage q).1 ≠ EfiStatus.notFound →
       (InternalLoadAppleLegacyInterface env).status = (env.loadImage q).1 ∧
       (InternalLoadAppleLegacyInterface env).attempts = pre ++ [q] ∧
       (InternalLoadAppleLegacyInterface env).imageHandle =
         (if (env.loadImage q).1 = EfiStatus.success then some (env.loadImage q).2 else none)) ∧
    (∀ A B hA hB, es = [A, B] →
       env.loadImage A = (EfiStatus.notFound, hA) →
       env.loadImage B = (EfiStatus.success, hB) →
       (InternalLoadAppleLegacyInterface env).status = EfiStatus.success ∧
       (InternalLoadAppleLegacyInterface env).imageHandle = some hB ∧
       (InternalLoadAppleLegacyInterface env).attempts = [A, B]) ∧
    (∀ A B hA s, es = [A, B] →
       env.loadImage A = (s, hA) →
       s ≠ EfiStatus.notFound →
       (InternalLoadAppleLegacyInterface env).status = s ∧
       (InternalLoadAppleLegacyInterface env).attempts = [A]) := by
  have h1 : EFI_ERROR EfiStatus.success = false := rfl
  have hload : InternalLoadAppleLegacyInterface env =
      ⟨(loadLoop env.loadImage es EfiStatus.success none []).status,
       (loadLoop env.loadImage es EfiStatus.success none []).handle,
       (loadLoop env.loadImage es EfiStatus.success none []).attempts,
       true, Resource.candidateArray :: al, fr ++ [Resource.candidateArray]⟩ := by
    simp [loader_main_branch env w hw hv ha, hscan, h1]
  have hmain : ∀ pre q rest, es = pre ++ q :: rest →
      (∀ p ∈ pre, (env.loadImage p).1 = EfiStatus.notFound) →
      (env.loadImage q).1 ≠ EfiStatus.notFound →
      (InternalLoadAppleLegacyInterface env).status = (env.loadImage q).1 ∧
      (InternalLoadAppleLegacyInterface env).attempts = pre ++ [q] ∧
      (InternalLoadAppleLegacyInterface env).imageHandle =
        (if (env.loadImage q).1 = EfiStatus.success then some (env.loadImage q).2 else none) := by
    intro pre q rest hes hpre hq
    subst hes
    rw [hload, loadLoop_stops env.loadImage pre q rest hpre hq]
    exact ⟨rfl, by simp, rfl⟩
  refine ⟨?_, hmain, ?_, ?_⟩
  · intro hall
    rw [hload, loadLoop_all_notFound env.loadImage es hall]
    exact ⟨by simp, rfl, rfl⟩
  · intro A B hA hB hes hla hlb
    have hq : (env.loadImage B).1 ≠ EfiStatus.notFound := by
      simp [hlb]
    have hpre : ∀ p ∈ [A], (env.loadImage p).1 = EfiStatus.notFound := by
      intro p hp
      rw [List.mem_singleton] at hp
      subst hp
      rw [hla]
    have h := hmain [A] B [] (by simp [hes]) hpre hq
    refine ⟨?_, ?_, ?_⟩
    · rw [h.1, hlb]
    · rw [hlb] at h
      simpa using h.2.2
    · simpa using h.2.1
  · intro A B hA s hes hla hs
    have hq : (env.loadImage A).1 ≠ EfiStatus.notFound := by
      rw [hla]
      simpa using hs
    have h := hmain [] A [B] (by simp [hes]) (by intro p hp; simp at hp) hq
    refine ⟨?_, ?_⟩
    · rw [h.1, hla]
    · simpa using h.2.1

/-- Claim C4 witness at `wenv4`: candidates `[candA, candB]`, `candA`
loads "not found", `candB` succeeds with handle 42. -/
theorem loader_fallback_order_witness :
    ScanAppleLegacyInterfacePaths wenv4.scanEnv MAX_APPLE_LEGACY_DEVICE_PATHS =
      ⟨EfiStatus.success, [candA, candB],
        [Resource.handleBuffer, Resource.candidatePath candA 0, Resource.candidatePath candB 1],
        [Resource.handleBuffer]⟩ ∧
    (InternalLoadAppleLegacyInterface wenv4).status = EfiStatus.success ∧
    (InternalLoadAppleLegacyInterface wenv4).imageHandle = some 42 ∧
    (InternalLoadAppleLegacyInterface wenv4).attempts = [candA, candB] := by
  have h := (loader_fallback_order wenv4 [0x01] [candA, candB]
      [Resource.handleBuffer, Resource.candidatePath candA 0, Resource.candidatePath candB 1]
      [Resource.handleBuffer] rfl rfl rfl (by decide)).2.2.1 candA candB 0 42 rfl
      (by decide) (by decide)
  exact ⟨by decide, h.1, h.2.1, h.2.2⟩

/-- Claim C6: the classifier returns `OcLegacyOsTypeNone` on a
context-open failure or a read failure; on a successful read it returns
`OcLegacyOsTypeWindowsBootmgr` whenever `"BOOTMGR"` occurs anywhere in
the buffer (even if `"NTLDR"` also occurs), `OcLegacyOsTypeWindowsNtldr`
when only `"NTLDR"` occurs, and `OcLegacyOsTypeNone` when neither
occurs. -/
theorem classifier_signature_priority (env : ClassifyEnv) :
    (EFI_ERROR env.contextStatus = true →
      InternalGetDiskLegacyOsType env = OC_LEGACY_OS_TYPE.OcLegacyOsTypeNone) ∧
    (EFI_ERROR env.contextStatus = false → env.allocOk = true →
      EFI_ERROR env.readStatus = true →
      InternalGetDiskLegacyOsType env = OC_LEGACY_OS_TYPE.OcLegacyOsTypeNone) ∧
    (EFI_ERROR env.contextStatus = false → env.allocOk = true →
      EFI_ERROR env.readStatus = false →
      (((∃ i, ((classifierBuffer env).drop i).take
            (AsciiStrToBytes ("BOOTMGR")).length = AsciiStrToBytes ("BOOTMGR")) →
          InternalGetDiskLegacyOsType env = OC_LEGACY_OS_TYPE.OcLegacyOsTypeWindowsBootmgr) ∧
       ((¬ ∃ i, ((classifierBuffer env).drop i).take
            (AsciiStrToBytes ("BOOTMGR")).length = AsciiStrToBytes ("BOOTMGR")) →
        (∃ i, ((classifierBuffer env).drop i).take
            (AsciiStrToBytes ("NTLDR")).length = AsciiStrToBytes ("NTLDR")) →
          InternalGetDiskLegacyOsType env = OC_LEGACY_OS_TYPE.OcLegacyOsTypeWindowsNtldr) ∧
       ((¬ ∃ i, ((classifierBuffer env).drop i).take
            (AsciiStrToBytes ("BOOTMGR")).length = AsciiStrToBytes ("BOOTMGR")) →
        (¬ ∃ i, ((classifierBuffer env).drop i).take
            (AsciiStrToBytes ("NTLDR")).length = AsciiStrToBytes ("NTLDR")) →
          InternalGetDiskLegacyOsType env = OC_LEGACY_OS_TYPE.OcLegacyOsTypeNone))) := by
  have hb : AsciiStrToBytes ("BOOTMGR") ≠ [] := by decide
  have hn : AsciiStrToBytes ("NTLDR") ≠ [] := by decide
  refine ⟨?_, ?_, ?_⟩
  · intro h
    simp [InternalGetDiskLegacyOsType, h]
  · intro h1 h2 h3
    simp [InternalGetDiskLegacyOsType, h1, h2, h3]
  · intro h1 h2 h3
    refine ⟨?_, ?_, ?_⟩
    · intro hocc
      have hc : CheckLegacySignature ("BOOTMGR") (classifierBuffer env) = true :=
        (FindPattern_iff (AsciiStrToBytes ("BOOTMGR")) (classifierBuffer env) hb).mpr hocc
      simp [InternalGetDiskLegacyOsType, h1, h2, h3, hc]
    · intro hnob hocc
      have hc1 : CheckLegacySignature ("BOOTMGR") (classifierBuffer env) = false := by
        cases hc : CheckLegacySignature ("BOOTMGR") (classifierBuffer env) with
        | false => rfl
        | true =>
          exact absurd
            ((FindPattern_iff (AsciiStrToBytes ("BOOTMGR")) (classifierBuffer env) hb).mp hc)
            hnob
      have hc2 : CheckLegacySignature ("NTLDR") (classifierBuffer env) = true :=
        (FindPattern_iff (AsciiStrToBytes ("NTLDR")) (classifierBuffer env) hn).mpr hocc
      simp [InternalGetDiskLegacyOsType, h1, h2, h3, hc1, hc2]
    · intro hnob hnon
      have hc1 : CheckLegacySignature ("BOOTMGR") (classifierBuffer env) = false := by
        cases hc : CheckLegacySignature ("BOOTMGR") (classifierBuffer env) with
        | false => rfl
        | true =>
          exact absurd
            ((FindPattern_iff (AsciiStrToBytes ("BOOTMGR")) (classifierBuffer env) hb).mp hc)
            hnob
      have hc2 : CheckLegacySignature ("NTLDR") (classifierBuffer env) = false := by
        cases hc : CheckLegacySignature ("NTLDR") (classifierBuffer env) with
        | false => rfl
        | true =>
          exact absurd
            ((FindPattern_iff (AsciiStrToBytes ("NTLDR")) (classifierBuffer env) hn).mp hc)
            hnon
      simp [InternalGetDiskLegacyOsType, h1, h2, h3, hc1, hc2]

/-- Claim C6 witness at `wenv6`: a successfully read sector containing
`"NTLDR"` but not `"BOOTMGR"` classifies as
`OcLegacyOsTypeWindowsNtldr`. -/
theorem classifier_signature_priority_witness :
    EFI_ERROR wenv6.contextStatus = false ∧
    InternalGetDiskLegacyOsType wenv6 = OC_LEGACY_OS_TYPE.OcLegacyOsTypeWindowsNtldr := by
  refine ⟨rfl, ?_⟩
  refine ((classifier_signature_priority wenv6).2.2 rfl rfl rfl).2.1 ?_ ?_
  · rintro ⟨i, hi⟩
    have ht : FindPattern (AsciiStrToBytes ("BOOTMGR")) (classifierBuffer wenv6) = true :=
      (FindPattern_iff (AsciiStrToBytes ("BOOTMGR")) (classifierBuffer wenv6)
        (by decide)).mpr ⟨i, hi⟩
    have hf : FindPattern (AsciiStrToBytes ("BOOTMGR")) (classifierBuffer wenv6) = false := by
      decide
    rw [hf] at ht
    exact Bool.noConfusion ht
  · exact ⟨2, by decide⟩

/-- Claim C7 counterexample: `many16Env` enumerates sixteen matching
(Hardware/MemMap-leading) entries — more than capacity − 1 = 15 — yet
the scanner stores a single entry: the inverted duplicate check flags
every later same-node-length, different-bytes candidate as a
duplicate. -/
theorem scan_sixteen_matching_entries_yields_one_cex :
    many16Env.handlesResult = Except.ok (List.range 16) ∧
    many16Env.devicePaths.length = 16 ∧
    (many16Env.devicePaths.all fun pr =>
      (devicePathType pr.2 == HARDWARE_DEVICE_PATH)
        && (devicePathSubType pr.2 == HW_MEMMAP_DP)) = true ∧
    (ScanAppleLegacyInterfacePaths many16Env 16).entries.length = 1 ∧
    ¬ (ScanAppleLegacyInterfacePaths many16Env 16).entries.length = 16 - 1 :=
  ⟨rfl, by decide, by decide, by decide, by decide⟩

/-- Claim C7 (amended): for every environment, with capacity 16 the
scanner stores at most 15 real entries, and in the output array the
slot immediately after the last accepted candidate holds the null
terminator. -/
theorem scan_capacity_sentinel (env : ScanEnv) :
    (ScanAppleLegacyInterfacePaths env 16).entries.length ≤ 15 ∧
    (scanOutputArray env 16).get?
      (ScanAppleLegacyInterfacePaths env 16).entries.length = some none := by
  have hlen : (ScanAppleLegacyInterfacePaths env 16).entries.length ≤ 15 := by
    cases hres : env.handlesResult with
    | error s => simp [ScanAppleLegacyInterfacePaths, hres]
    | ok handles =>
      simp only [ScanAppleLegacyInterfacePaths, hres]
      exact scanLoopAux_length_le env 15 handles [] [] (by simp)
  refine ⟨hlen, ?_⟩
  unfold scanOutputArray
  have hmap : ((ScanAppleLegacyInterfacePaths env 16).entries.map some).length =
      (ScanAppleLegacyInterfacePaths env 16).entries.length := by
    simp
  rw [show (ScanAppleLegacyInterfacePaths env 16).entries.length =
      ((ScanAppleLegacyInterfacePaths env 16).entries.map some).length from hmap.symm,
    get?_append_length]
  have hk : 16 - (ScanAppleLegacyInterfacePaths env 16).entries.length =
      (15 - (ScanAppleLegacyInterfacePaths env 16).entries.length) + 1 := by
    omega
  rw [hk, List.replicate_succ]
  rfl

/-- Claim C8: the signature matcher returns true for a nonempty
signature exactly when the signature's bytes occur as a contiguous run
at some offset in the buffer; a signature longer than the buffer never
matches and an empty buffer never matches. -/
theorem signature_matcher_correct (sig : String) (buffer : List Nat) :
    (AsciiStrToBytes sig ≠ [] →
      (CheckLegacySignature sig buffer = true ↔
        ∃ i, (buffer.drop i).take (AsciiStrToBytes sig).length = AsciiStrToBytes sig)) ∧
    ((AsciiStrToBytes sig).length > buffer.length →
      CheckLegacySignature sig buffer = false) ∧
    (buffer = [] → CheckLegacySignature sig buffer = false) := by
  refine ⟨fun h => FindPattern_iff (AsciiStrToBytes sig) buffer h,
    fun h => FindPattern_longer (AsciiStrToBytes sig) buffer h,
    fun h => ?_⟩
  subst h
  rfl

/-- Claim C8 witness: `"AB"` occurs at offset 0 of `[65, 66, 67]`, and
the longer signature `"ABCD"` does not match the two-byte buffer
`[65, 66]`. -/
theorem signature_matcher_correct_witness :
    CheckLegacySignature ("AB") [65, 66, 67] = true ∧
    CheckLegacySignature ("ABCD") [65, 66] = false :=
  ⟨((signature_matcher_correct ("AB") [65, 66, 67]).1 (by decide)).mpr ⟨0, by decide⟩,
   (signature_matcher_correct ("ABCD") [65, 66]).2.1 (by decide)⟩

/-- Claim C10: if the sector-buffer allocation fails after the disk
context was opened, the classifier returns `OcLegacyOsTypeNone`, the
same value as for an open or read failure. -/
theorem classifier_alloc_failure_returns_none (env : ClassifyEnv)
    (h1 : EFI_ERROR env.contextStatus = false)
    (h2 : env.allocOk = false) :
    InternalGetDiskLegacyOsType env = OC_LEGACY_OS_TYPE.OcLegacyOsTypeNone := by
  simp [InternalGetDiskLegacyOsType, h1, h2]

/-- Claim C10 witness at `wenv10`. -/
theorem classifier_alloc_failure_returns_none_witness :
    EFI_ERROR wenv10.contextStatus = false ∧ wenv10.allocOk = false ∧
    InternalGetDiskLegacyOsType wenv10 = OC_LEGACY_OS_TYPE.OcLegacyOsTypeNone :=
  ⟨rfl, rfl, classifier_alloc_failure_returns_none wenv10 rfl rfl⟩
